import Mathlib

/-!
Verification development for the TorFleet probing-and-selection engine
(src/TorFleet.py).  The Python source is shallowly embedded: every network
interaction (IP-discovery service, geolocation service, download endpoint,
status check) is modelled as a response the environment hands to the
function, with `none` standing for a raised/caught exception.  Python
floats are modelled as rationals, Python `round(x, n)` as rounding the
scaled rational to the nearest integer, and Python strings as Lean
strings with the used operations (`strip`, `split`, `lower`, `upper`,
`startswith`, `in`) re-implemented structurally so terms evaluate.
-/

/-! ### Python string primitives -/

/-- Python `str.strip()`: drop whitespace from both ends. -/
def pyStrip (s : String) : String :=
  ⟨((s.data.dropWhile Char.isWhitespace).reverse.dropWhile Char.isWhitespace).reverse⟩

/-- Python `str.lower()`. -/
def pyLower (s : String) : String := ⟨s.data.map Char.toLower⟩

/-- Python `str.upper()`. -/
def pyUpper (s : String) : String := ⟨s.data.map Char.toUpper⟩

/-- Python `str.split(c)` for a one-character separator: splitting the
empty string yields one (empty) field, and `k` separators yield `k+1`
fields. -/
def pySplitCh (c : Char) : List Char → List (List Char)
  | [] => [[]]
  | a :: rest =>
    let r := pySplitCh c rest
    if a = c then [] :: r
    else
      match r with
      | [] => [[a]]
      | g :: gs => (a :: g) :: gs

/-- Python `pat in s` substring test. -/
def subOccurs (pat : List Char) : List Char → Bool
  | [] => pat.isPrefixOf []
  | a :: rest => pat.isPrefixOf (a :: rest) || subOccurs pat rest

/-- Python `s.startswith(p)`. -/
def pyStartsWith (p s : String) : Bool := p.data.isPrefixOf s.data

/-! ### Data model

`TorInstance` mirrors the mutable fields of the Python class of the same
name; the observed fields start out as `None` (here `none`) and are
overwritten by the engine. -/

/-- Result of one successful probe attempt: the dict
`\x7b'ip','country','city','ping','speed'\x7d` built in
`find_fastest_ip_for_instance`. -/
structure AttemptResult where
  ip : String
  country : String
  city : String
  ping : ℕ
  speed : ℚ
deriving DecidableEq

/-- One configured Tor endpoint (Python class `TorInstance`); only the
fields the probing engine reads or writes are modelled. -/
structure TorInstance where
  name : String
  country : String
  port : ℕ
  data_dir : String
  ip : Option String := none
  city : Option String := none
  ping : Option ℕ := none
  speed : Option ℚ := none
  best_results : List AttemptResult := []
deriving DecidableEq

/-- Response of one download endpoint in `test_speed`: HTTP status,
number of bytes of `response.content`, and elapsed seconds.  A raised
`requests` exception is modelled as `none` at the use site. -/
structure DlResponse where
  status : ℕ
  size : ℕ
  time : ℚ
deriving DecidableEq

/-- Response of one geolocation service: HTTP status plus the values the
service's configured country and city JSON keys map to (absent key =
`none`).  An exception (connection error, bad JSON) is `none`. -/
abbrev GeoResponse := Option (ℕ × Option String × Option String)

/-- Environment of one probe attempt: the responses the five IP services,
the four geolocation services, the three download endpoints and the three
status-check requests would give, in cascade order. -/
structure AttemptEnv where
  ipResponses : List (Option (String × ℕ))
  geoResponses : List GeoResponse
  downloads : List (Option DlResponse)
  statusChecks : List (Option (ℕ × ℚ))

/-! ### IdentityResolver: `TorManager.get_ip_and_location` -/

/-- The IP-discovery loop.  `ip` and `ping_time` are the Python local
variables: every answering service overwrites both (even with invalid
text), and the loop breaks on the first non-empty dotted-quad. -/
def ipServiceLoop : List (Option (String × ℕ)) → Option String → ℕ → Option String × ℕ
  | [], ip, ping_time => (ip, ping_time)
  | none :: rest, ip, ping_time => ipServiceLoop rest ip ping_time
  | some (text, ms) :: rest, _, _ =>
    let s := pyStrip text
    if s ≠ "" ∧ (pySplitCh '.' s.data).length = 4 then (some s, ms)
    else ipServiceLoop rest (some s) ms

/-- The geolocation loop: first HTTP-200 answer whose (upper-cased)
country value is a non-empty 2-character string wins; the city value
defaults to "Unknown"; exhaustion yields an "Unknown" country, not a
failure. -/
def locationServiceLoop (ip : String) (ping_time : ℕ) :
    List GeoResponse → Option String × String × String × ℕ
  | [] => (some ip, "Unknown", "Unknown", ping_time)
  | none :: rest => locationServiceLoop ip ping_time rest
  | some (status, countryVal, cityVal) :: rest =>
    if status = 200 then
      let country := pyUpper (countryVal.getD "")
      let city := cityVal.getD "Unknown"
      if country ≠ "" ∧ country.length = 2 then (some ip, country, city, ping_time)
      else locationServiceLoop ip ping_time rest
    else locationServiceLoop ip ping_time rest

/-- `TorManager.get_ip_and_location`: run the IP-discovery cascade; if it
leaves no (non-empty) address text, fail with
`(None, "Error", "No IP", 9999)`; otherwise run the geolocation
cascade on the discovered text. -/
def get_ip_and_location (ipResponses : List (Option (String × ℕ)))
    (geoResponses : List GeoResponse) : Option String × String × String × ℕ :=
  match ipServiceLoop ipResponses none 9999 with
  | (none, _) => (none, "Error", "No IP", 9999)
  | (some ip, ping_time) =>
    if ip = "" then (none, "Error", "No IP", 9999)
    else locationServiceLoop ip ping_time geoResponses

/-! ### ThroughputProbe: `TorManager.test_speed` -/

/-- Python `round(q, 2)`. -/
def round2 (q : ℚ) : ℚ := (round (q * 100) : ℤ) / 100

/-- Python `round(q, 1)`. -/
def round1 (q : ℚ) : ℚ := (round (q * 10) : ℤ) / 10

/-- A download response yields a measurement iff HTTP 200, positive
elapsed time and more than 1000 bytes actually transferred. -/
def dlQualifies (r : DlResponse) : Bool :=
  r.status == 200 && decide (0 < r.time) && decide (1000 < r.size)

/-- The primary download loop of `test_speed`: first qualifying response
gives `round(size*8/(time*1000000), 2)` Mbps; `none` means every
download attempt failed. -/
def downloadPhase : List (Option DlResponse) → Option ℚ
  | [] => none
  | none :: rest => downloadPhase rest
  | some r :: rest =>
    if dlQualifies r then some (round2 ((r.size * 8 : ℚ) / (r.time * 1000000)))
    else downloadPhase rest

/-- The status-check loop inside the fallback's `try`: HTTP-200 answers
append their latency; a raised exception aborts the whole loop (the
Python `try` wraps the entire `for`), modelled by returning `none`. -/
def statusCheckLoop : List (Option (ℕ × ℚ)) → List ℚ → Option (List ℚ)
  | [], acc => some acc
  | none :: _, _ => none
  | some (status, ms) :: rest, acc =>
    statusCheckLoop rest (if status = 200 then acc ++ [ms] else acc)

/-- The ping-based fallback of `test_speed`: average the collected
latencies and return `round(max(0.1, 10/(avg/100)), 1)`; an aborted
loop or zero collected pings give 0.  The division `10/(avg/100)` sits
inside the same `try`: when the averaged latency is zero it raises
`ZeroDivisionError`, the `except` swallows it, and the function falls
through to `return 0` — modelled by the explicit zero-divisor guard. -/
def speedFallback (statusChecks : List (Option (ℕ × ℚ))) : ℚ :=
  match statusCheckLoop statusChecks [] with
  | none => 0
  | some ping_times =>
    if ping_times = [] then 0
    else
      let avg_ping := ping_times.sum / (ping_times.length : ℚ)
      if avg_ping / 100 = 0 then 0
      else round1 (max 0.1 (10 / (avg_ping / 100)))

/-- `TorManager.test_speed`: the first successful download measurement,
else the ping-based fallback estimate, else 0. -/
def test_speed (downloads : List (Option DlResponse))
    (statusChecks : List (Option (ℕ × ℚ))) : ℚ :=
  match downloadPhase downloads with
  | some mbps => mbps
  | none => speedFallback statusChecks

/-! ### Bridge handling: `detect_bridge_type`, `parse_bridge_input` -/

/-- The if/elif classification chain of `detect_bridge_type`, on the
lowered line. -/
def classifyBridgeLine (low : List Char) : String :=
  if subOccurs "obfs4".data low then "obfs4"
  else if subOccurs "snowflake".data low then "snowflake"
  else if subOccurs "meek-azure".data low || subOccurs "meek_lite".data low then
    "meek-azure"
  else if subOccurs "webtunnel".data low then "webtunnel"
  else "unknown"

/-- `TorManager.detect_bridge_type`: substring tests on the lowered line;
an empty (falsy) line gives `None`, an unrecognized one gives
"unknown". -/
def detect_bridge_type (bridge_line : String) : Option String :=
  if bridge_line = "" then none
  else some (classifyBridgeLine (pyLower bridge_line).data)

/-- The stripped, non-empty lines of the raw bridge input. -/
def rawBridgeLines (bridge_input : String) : List String :=
  ((pySplitCh '\n' (pyStrip bridge_input).data).map (fun l => pyStrip ⟨l⟩)).filter
    (fun l => l ≠ "")

/-- Prepend "Bridge " to a line that does not already start with it. -/
def mkBridgeLine (line : String) : String :=
  if pyStartsWith "Bridge" line then line else "Bridge " ++ line

/-- The bridge lines `parse_bridge_input` keeps. -/
def bridgeLinesOf (bridge_input : String) : List String :=
  (rawBridgeLines bridge_input).map mkBridgeLine

/-- The set `bridge_types` accumulated by `parse_bridge_input`, modelled
as a duplicate-free list in insertion order (CPython iterates a `set` in
an unspecified order; the code takes `list(bridge_types)[0]`, i.e. an
arbitrary member, modelled as the first-detected type). -/
def detectedTypes (lines : List String) : List String :=
  lines.foldl
    (fun acc l =>
      match detect_bridge_type l with
      | some t => if t ∈ acc then acc else acc ++ [t]
      | none => acc)
    []

/-- `TorManager.parse_bridge_input`: `none` models the Python
`(None, None)` answer for blank input; otherwise all (prefixed) lines
are kept and one representative of the detected types is recorded,
with "unknown" for an empty type set. -/
def parse_bridge_input (bridge_input : String) : Option (List String × String) :=
  if pyStrip bridge_input = "" then none
  else
    let bridge_lines := bridgeLinesOf bridge_input
    match detectedTypes bridge_lines with
    | [] => some (bridge_lines, "unknown")
    | t :: _ => some (bridge_lines, t)

/-! ### ConfigBuilder: `TorManager.create_torrc`

The generated torrc text is modelled as its list of lines, in source
order.  `circuit_period` is the value `random.randint(15, 45)` produced
for this call. -/

/-- The transport-plugin directive chosen by the if/elif chain of
`create_torrc` from the bridge type (no directive for an unknown
type). -/
def transportPluginLines (bridge_type : String) : List String :=
  if bridge_type = "obfs4" then
    ["ClientTransportPlugin obfs4 exec /usr/bin/obfs4proxy"]
  else if bridge_type = "snowflake" then
    ["ClientTransportPlugin snowflake exec /usr/bin/snowflake-client"]
  else if bridge_type = "meek-azure" then
    ["ClientTransportPlugin meek_lite exec /usr/bin/meek-client"]
  else if bridge_type = "webtunnel" then
    ["ClientTransportPlugin webtunnel exec /usr/bin/webtunnel-client"]
  else []

/-- Lines of the torrc file written by `TorManager.create_torrc`. -/
def create_torrc (inst : TorInstance) (use_bridges : Bool)
    (bridge_data : Option (List String × String)) (circuit_period : ℕ) : List String :=
  ["SocksPort " ++ toString inst.port,
   "DataDirectory " ++ inst.data_dir]
  ++ (if use_bridges then
        match bridge_data with
        | some (bridge_lines, bridge_type) =>
          ["UseBridges 1"] ++ transportPluginLines bridge_type ++ bridge_lines
        | none => []
      else [])
  ++ ["ExitNodes \x7b" ++ inst.country ++ "\x7d",
      "StrictNodes 1",
      "NewCircuitPeriod " ++ toString circuit_period,
      "MaxCircuitDirtiness 300",
      (if use_bridges then "CircuitBuildTimeout 120" else "CircuitBuildTimeout 60"),
      "LearnCircuitBuildTimeout 0",
      "NumEntryGuards 3",
      "UseEntryGuards 1"]

/-! ### AttemptRunner and FleetOrchestrator:
`find_fastest_ip_for_instance`, `start_all_instances_with_best_ips`,
`test_all_instances` -/

/-- One attempt of the loop body of `find_fastest_ip_for_instance`:
resolve identity, and only when an address was found and its country
matches the instance's target, measure throughput and record a result.
The boolean records whether `test_speed` was invoked on this attempt. -/
def runAttempt (inst : TorInstance) (env : AttemptEnv) : Option AttemptResult × Bool :=
  match get_ip_and_location env.ipResponses env.geoResponses with
  | (some ip, country, city, ping) =>
    if country = inst.country then
      (some ⟨ip, country, city, ping, test_speed env.downloads env.statusChecks⟩, true)
    else (none, false)
  | (none, _, _, _) => (none, false)

/-- The `results` list collected across the attempts of one
`find_fastest_ip_for_instance` run. -/
def attemptResults (inst : TorInstance) (envs : List AttemptEnv) : List AttemptResult :=
  envs.filterMap (fun env => (runAttempt inst env).1)

/-- Python `max(results, key=lambda x: x.get('speed', 0))`: the first
result of maximal speed (later elements replace only on strictly larger
key). -/
def pyMaxBySpeed : List AttemptResult → Option AttemptResult
  | [] => none
  | x :: xs => some (xs.foldl (fun best r => if best.speed < r.speed then r else best) x)

/-- `TorManager.find_fastest_ip_for_instance`: collect the attempt
results, select the best by maximal speed, and overwrite the instance's
observed fields from it; with zero successful attempts the instance is
untouched and `None` is returned. -/
def find_fastest_ip_for_instance (inst : TorInstance) (envs : List AttemptEnv) :
    Option AttemptResult × TorInstance :=
  let results := attemptResults inst envs
  match pyMaxBySpeed results with
  | some best =>
    (some best,
     { inst with ip := some best.ip, city := some best.city, ping := some best.ping,
                 speed := some best.speed, best_results := results })
  | none => (none, inst)

/-- One entry of the `successful` list in
`start_all_instances_with_best_ips`: the Python dict
`\x7b'name', 'inst', **result\x7d`. -/
structure RankEntry where
  name : String
  inst : TorInstance
  result : AttemptResult
deriving DecidableEq

/-- The sort order of Python `key=lambda x: (-speed, ping)`: descending
speed, ascending ping as tiebreak. -/
def speedPingLe (sa : ℚ) (pa : ℕ) (sb : ℚ) (pb : ℕ) : Bool :=
  decide (sb < sa) || (decide (sa = sb) && decide (pa ≤ pb))

/-- Comparator used on the `successful` list. -/
def rankLe (a b : RankEntry) : Bool :=
  speedPingLe a.result.speed a.result.ping b.result.speed b.result.ping

/-- `TorManager.start_all_instances_with_best_ips`, restricted to its
observable output: run `find_fastest_ip_for_instance` on every
configured instance, keep the successful ones, and sort by descending
speed with ascending ping as tiebreak (Python `list.sort` is a stable
sort, modelled by `mergeSort`). -/
def start_all_instances_with_best_ips (fleet : List (TorInstance × List AttemptEnv)) :
    List RankEntry :=
  let successful := fleet.filterMap (fun p =>
    match find_fastest_ip_for_instance p.1 p.2 with
    | (some best, inst) => some (⟨p.1.name, inst, best⟩ : RankEntry)
    | (none, _) => none)
  successful.mergeSort rankLe

/-- The re-test pass of `test_all_instances` for one instance: if it is
running and resolution yields any address, overwrite the observed fields
(no country check) and include it; otherwise skip it. -/
def retestOne (inst : TorInstance) (running : Bool) (env : AttemptEnv) : Option TorInstance :=
  if running then
    match get_ip_and_location env.ipResponses env.geoResponses with
    | (some ip, _, city, ping) =>
      some { inst with ip := some ip, city := some city, ping := some ping,
                       speed := some (test_speed env.downloads env.statusChecks) }
    | (none, _, _, _) => none
  else none

/-- Comparator of the re-test ranking, `key=lambda x: (-x.speed, x.ping)`
on instances; every ranked instance has these fields set, so `getD`
only totalizes the model. -/
def instLe (a b : TorInstance) : Bool :=
  speedPingLe (a.speed.getD 0) (a.ping.getD 0) (b.speed.getD 0) (b.ping.getD 0)

/-- `TorManager.test_all_instances`, restricted to its observable output:
re-test every running instance in place and sort the updated instances
by descending speed, ascending ping. -/
def test_all_instances (fleet : List (TorInstance × Bool × AttemptEnv)) : List TorInstance :=
  (fleet.filterMap (fun p => retestOne p.1 p.2.1 p.2.2)).mergeSort instLe

example : get_ip_and_location [some (" 1.2.3.4 ", 120)] [some (200, some "us", some "NYC")]
    = (some "1.2.3.4", "US", "NYC", 120) := by decide

example : get_ip_and_location [some ("garbage", 100)] [some (200, some "fr", some "Paris")]
    = (some "garbage", "FR", "Paris", 100) := by decide

example : get_ip_and_location [none, none] [some (200, some "us", some "NYC")]
    = (none, "Error", "No IP", 9999) := by decide

example : test_speed [] [] = 0 := by decide

example : test_speed [none, none, some ⟨200, 100000, 1/2⟩] []
    = round2 ((100000 * 8 : ℚ) / ((1/2) * 1000000)) := by
  norm_num [test_speed, downloadPhase, dlQualifies]

example : parse_bridge_input "obfs4 1.2.3.4:443 AAAA\nsnowflake 2.3.4.5:80 BBBB"
    = some (["Bridge obfs4 1.2.3.4:443 AAAA", "Bridge snowflake 2.3.4.5:80 BBBB"], "obfs4") := by
  decide

/-! ### Helper lemmas -/

/-- The Python `max` fold returns an element of the list it scans. -/
theorem foldlBest_mem : ∀ (xs : List AttemptResult) (x : AttemptResult),
    xs.foldl (fun best r => if best.speed < r.speed then r else best) x ∈ x :: xs
  | [], _ => by simp
  | y :: ys, x => by
    simp only [List.foldl_cons]
    rcases List.mem_cons.mp (foldlBest_mem ys (if x.speed < y.speed then y else x)) with h1 | h1
    · rw [h1]
      by_cases hxy : x.speed < y.speed <;> simp [hxy]
    · simp [List.mem_cons_of_mem, h1]

/-- The Python `max` fold dominates every element it scans. -/
theorem foldlBest_ge : ∀ (xs : List AttemptResult) (x r : AttemptResult), r ∈ x :: xs →
    r.speed ≤ (xs.foldl (fun best s => if best.speed < s.speed then s else best) x).speed
  | [], x, r, hr => by
    simp only [List.mem_singleton] at hr
    simp [hr]
  | y :: ys, x, r, hr => by
    simp only [List.foldl_cons]
    have step_ge_x : x.speed ≤ (if x.speed < y.speed then y else x).speed := by
      by_cases h : x.speed < y.speed
      · simp only [h, if_true]; exact le_of_lt h
      · simp [h]
    have step_ge_y : y.speed ≤ (if x.speed < y.speed then y else x).speed := by
      by_cases h : x.speed < y.speed
      · simp [h]
      · simp only [h, if_false]; exact le_of_not_lt h
    have tail_ge := fun s hs => foldlBest_ge ys (if x.speed < y.speed then y else x) s hs
    rcases List.mem_cons.mp hr with h1 | h1
    · subst h1
      exact le_trans step_ge_x (tail_ge _ (List.mem_cons_self _ _))
    rcases List.mem_cons.mp h1 with h2 | h2
    · subst h2
      exact le_trans step_ge_y (tail_ge _ (List.mem_cons_self _ _))
    · exact tail_ge r (List.mem_cons_of_mem _ h2)

/-- The chosen best result is one of the collected results. -/
theorem pyMaxBySpeed_mem {l : List AttemptResult} {b : AttemptResult}
    (h : pyMaxBySpeed l = some b) : b ∈ l := by
  cases l with
  | nil => simp [pyMaxBySpeed] at h
  | cons x xs =>
    simp only [pyMaxBySpeed, Option.some.injEq] at h
    exact h ▸ foldlBest_mem xs x

/-- The chosen best result has maximal speed among the collected results. -/
theorem pyMaxBySpeed_ge {l : List AttemptResult} {b : AttemptResult}
    (h : pyMaxBySpeed l = some b) : ∀ r ∈ l, r.speed ≤ b.speed := by
  cases l with
  | nil => simp [pyMaxBySpeed] at h
  | cons x xs =>
    simp only [pyMaxBySpeed, Option.some.injEq] at h
    exact fun r hr => h ▸ foldlBest_ge xs x r hr

/-- C1: whenever an orchestration run for an endpoint has at least one
successful attempt, the AttemptResult selected by
`find_fastest_ip_for_instance` is one of the collected results, has the
maximum speed among all of them, and the instance's mutable fields
(ip, city, ping, speed) are updated from it. -/
theorem find_fastest_selects_max_throughput (inst : TorInstance) (envs : List AttemptEnv)
    (best : AttemptResult) (inst' : TorInstance)
    (h : find_fastest_ip_for_instance inst envs = (some best, inst')) :
    best ∈ attemptResults inst envs ∧
    (∀ r ∈ attemptResults inst envs, r.speed ≤ best.speed) ∧
    inst'.ip = some best.ip ∧ inst'.city = some best.city ∧
    inst'.ping = some best.ping ∧ inst'.speed = some best.speed := by
  cases hm : pyMaxBySpeed (attemptResults inst envs) with
  | none => simp [find_fastest_ip_for_instance, hm] at h
  | some b =>
    simp only [find_fastest_ip_for_instance, hm, Prod.mk.injEq, Option.some.injEq] at h
    obtain ⟨hb, hinst⟩ := h
    subst hb
    subst hinst
    exact ⟨pyMaxBySpeed_mem hm, pyMaxBySpeed_ge hm, rfl, rfl, rfl, rfl⟩

/-- Witness for C1 at a concrete one-attempt run. -/
theorem find_fastest_selects_max_throughput_witness :
    (⟨"1.2.3.4", "US", "NYC", 120, 0⟩ : AttemptResult) ∈
      attemptResults ⟨"tor1", "US", 9050, "/root/tor/tor1", none, none, none, none, []⟩
        [⟨[some (" 1.2.3.4 ", 120)], [some (200, some "us", some "NYC")], [], []⟩] ∧
    (∀ r ∈ attemptResults ⟨"tor1", "US", 9050, "/root/tor/tor1", none, none, none, none, []⟩
        [⟨[some (" 1.2.3.4 ", 120)], [some (200, some "us", some "NYC")], [], []⟩],
      r.speed ≤ (0 : ℚ)) ∧
    (some "1.2.3.4" : Option String) = some "1.2.3.4" ∧
    (some "NYC" : Option String) = some "NYC" ∧
    (some 120 : Option ℕ) = some 120 ∧ (some (0 : ℚ) : Option ℚ) = some 0 :=
  find_fastest_selects_max_throughput
    ⟨"tor1", "US", 9050, "/root/tor/tor1", none, none, none, none, []⟩
    [⟨[some (" 1.2.3.4 ", 120)], [some (200, some "us", some "NYC")], [], []⟩]
    ⟨"1.2.3.4", "US", "NYC", 120, 0⟩
    ⟨"tor1", "US", 9050, "/root/tor/tor1", some "1.2.3.4", some "NYC", some 120, some 0,
      [⟨"1.2.3.4", "US", "NYC", 120, 0⟩]⟩
    rfl

/-- Transitivity of the (descending speed, ascending ping) sort order. -/
theorem speedPingLe_trans {s1 s2 s3 : ℚ} {p1 p2 p3 : ℕ}
    (h1 : speedPingLe s1 p1 s2 p2 = true) (h2 : speedPingLe s2 p2 s3 p3 = true) :
    speedPingLe s1 p1 s3 p3 = true := by
  simp only [speedPingLe, Bool.or_eq_true, Bool.and_eq_true, decide_eq_true_eq] at h1 h2 ⊢
  rcases h1 with hlt1 | ⟨heq1, hp1⟩
  · rcases h2 with hlt2 | ⟨heq2, _⟩
    · exact Or.inl (lt_trans hlt2 hlt1)
    · exact Or.inl (heq2 ▸ hlt1)
  · rcases h2 with hlt2 | ⟨heq2, hp2⟩
    · exact Or.inl (by rw [heq1]; exact hlt2)
    · exact Or.inr ⟨heq1.trans heq2, le_trans hp1 hp2⟩

/-- Totality of the (descending speed, ascending ping) sort order. -/
theorem speedPingLe_total (s1 s2 : ℚ) (p1 p2 : ℕ) :
    (speedPingLe s1 p1 s2 p2 || speedPingLe s2 p2 s1 p1) = true := by
  simp only [speedPingLe, Bool.or_eq_true, Bool.and_eq_true, decide_eq_true_eq]
  rcases lt_trichotomy s1 s2 with h | h | h
  · tauto
  · rcases Nat.le_total p1 p2 with hp | hp <;> tauto
  · tauto

/-- Sorting rank entries with the Python key yields a pairwise-sorted
list. -/
theorem rank_mergeSort_pairwise (l : List RankEntry) :
    (l.mergeSort rankLe).Pairwise (fun a b => rankLe a b = true) := by
  have htrans : ∀ a b c : RankEntry, rankLe a b → rankLe b c → rankLe a c :=
    fun a b c hab hbc => speedPingLe_trans hab hbc
  have htotal : ∀ a b : RankEntry, (rankLe a b || rankLe b a) = true :=
    fun a b => speedPingLe_total _ _ _ _
  exact List.sorted_mergeSort htrans htotal l

/-- Sorting re-tested instances with the Python key yields a
pairwise-sorted list. -/
theorem inst_mergeSort_pairwise (l : List TorInstance) :
    (l.mergeSort instLe).Pairwise (fun a b => instLe a b = true) := by
  have htrans : ∀ a b c : TorInstance, instLe a b → instLe b c → instLe a c :=
    fun a b c hab hbc => speedPingLe_trans hab hbc
  have htotal : ∀ a b : TorInstance, (instLe a b || instLe b a) = true :=
    fun a b => speedPingLe_total _ _ _ _
  exact List.sorted_mergeSort htrans htotal l

/-- C2: both rankings the orchestrator prints — the full-run ranking of
`start_all_instances_with_best_ips` and the re-test ranking of
`test_all_instances` — are sorted so that each adjacent pair (a, b) has
strictly larger speed in a, or equal speed and smaller-or-equal ping. -/
theorem fleet_rankings_sorted (fleet : List (TorInstance × List AttemptEnv))
    (tfleet : List (TorInstance × Bool × AttemptEnv)) :
    List.Chain'
      (fun a b : RankEntry =>
        b.result.speed < a.result.speed ∨
          (a.result.speed = b.result.speed ∧ a.result.ping ≤ b.result.ping))
      (start_all_instances_with_best_ips fleet) ∧
    List.Chain'
      (fun a b : TorInstance =>
        b.speed.getD 0 < a.speed.getD 0 ∨
          (a.speed.getD 0 = b.speed.getD 0 ∧ a.ping.getD 0 ≤ b.ping.getD 0))
      (test_all_instances tfleet) := by
  constructor
  · have hp : (start_all_instances_with_best_ips fleet).Pairwise
        (fun a b => rankLe a b = true) := rank_mergeSort_pairwise _
    exact hp.chain'.imp (fun a b hab => by
      simpa only [rankLe, speedPingLe, Bool.or_eq_true, Bool.and_eq_true,
        decide_eq_true_eq] using hab)
  · have hp : (test_all_instances tfleet).Pairwise
        (fun a b => instLe a b = true) := inst_mergeSort_pairwise _
    exact hp.chain'.imp (fun a b hab => by
      simpa only [instLe, speedPingLe, Bool.or_eq_true, Bool.and_eq_true,
        decide_eq_true_eq] using hab)

/-- A response of an IP service that leaves the Python `ip` variable
falsy: either the call raised, or the stripped text is empty. -/
def blankIpResponse (r : Option (String × ℕ)) : Bool :=
  match r with
  | none => true
  | some (text, _) => pyStrip text == ""

/-- C3 counterexample: a non-empty but syntactically invalid answer
("garbage" is not a dotted quad) exhausts the IP cascade, yet resolution
does not fail — the invalid text is kept as the address and the
geolocation cascade IS consulted (its answer "FR"/"Paris" shows up in
the result, and with no geolocation responses the result differs). -/
theorem ip_cascade_invalid_text_reaches_geo :
    get_ip_and_location [some ("garbage", 100)] [some (200, some "fr", some "Paris")]
      = (some "garbage", "FR", "Paris", 100) ∧
    get_ip_and_location [some ("garbage", 100)] []
      = (some "garbage", "Unknown", "Unknown", 100) := by decide

/-- C3 amended: if every IP-discovery call either raises or returns
text that strips to empty, resolution fails immediately with
`(None, "Error", "No IP", 9999)` — independently of the geolocation
responses, which are never consulted. -/
theorem ip_cascade_blank_fails_without_geo (ipResponses : List (Option (String × ℕ)))
    (h : ipResponses.all blankIpResponse = true) (geoResponses : List GeoResponse) :
    get_ip_and_location ipResponses geoResponses = (none, "Error", "No IP", 9999) := by
  have key : ∀ (l : List (Option (String × ℕ))), l.all blankIpResponse = true →
      ∀ (acc : Option String) (p : ℕ), acc = none ∨ acc = some "" →
      (ipServiceLoop l acc p).1 = none ∨ (ipServiceLoop l acc p).1 = some "" := by
    intro l
    induction l with
    | nil => intro _ acc p hacc; exact hacc
    | cons r rest ih =>
      intro hall acc p hacc
      simp only [List.all_cons, Bool.and_eq_true] at hall
      obtain ⟨hr, hrest⟩ := hall
      cases r with
      | none => simpa [ipServiceLoop] using ih hrest acc p hacc
      | some tp =>
        obtain ⟨t, ms⟩ := tp
        have ht : pyStrip t = "" := by simpa [blankIpResponse] using hr
        simpa [ipServiceLoop, ht] using ih hrest (some "") ms (Or.inr rfl)
  rcases hk : ipServiceLoop ipResponses none 9999 with ⟨ipVar, p⟩
  have hblank := key ipResponses h none 9999 (Or.inl rfl)
  rw [hk] at hblank
  change ipVar = none ∨ ipVar = some "" at hblank
  unfold get_ip_and_location
  rw [hk]
  rcases hblank with h1 | h1 <;> subst h1 <;> simp

/-- Witness for the amended C3: one raising service and one service
answering whitespace leave resolution failed, geolocation untouched. -/
theorem ip_cascade_blank_fails_without_geo_witness :
    get_ip_and_location [none, some ("  ", 50)] [some (200, some "us", some "NYC")]
      = (none, "Error", "No IP", 9999) :=
  ip_cascade_blank_fails_without_geo [none, some ("  ", 50)] (by decide)
    [some (200, some "us", some "NYC")]

/-- C4: when identity resolution fails, or resolves to a country other
than the instance's target, the attempt is recorded as failed (no
AttemptResult enters the results list) and `test_speed` is never
invoked — for any download/status responses whatsoever, the attempt
outcome is `(none, false)`, the boolean being the invocation flag. -/
theorem attempt_mismatch_skips_speed (inst : TorInstance) (env : AttemptEnv)
    (h : (get_ip_and_location env.ipResponses env.geoResponses).1 = none ∨
         (get_ip_and_location env.ipResponses env.geoResponses).2.1 ≠ inst.country) :
    ∀ (downloads : List (Option DlResponse)) (statusChecks : List (Option (ℕ × ℚ))),
      runAttempt inst ⟨env.ipResponses, env.geoResponses, downloads, statusChecks⟩
        = (none, false) := by
  intro downloads statusChecks
  unfold runAttempt
  rcases hg : get_ip_and_location env.ipResponses env.geoResponses with ⟨ipVar, c, ci, p⟩
  rw [hg] at h
  cases ipVar with
  | none => rfl
  | some a =>
    rcases h with h1 | h1
    · exact absurd h1 (by simp)
    · simp only at h1
      simp [h1]

/-- Witness for C4: a US-target instance resolving to country FR. -/
theorem attempt_mismatch_skips_speed_witness :
    runAttempt ⟨"tor1", "US", 9050, "/root/tor/tor1", none, none, none, none, []⟩
      ⟨[some ("5.6.7.8", 90)], [some (200, some "fr", some "Paris")], [], []⟩
      = (none, false) :=
  attempt_mismatch_skips_speed
    ⟨"tor1", "US", 9050, "/root/tor/tor1", none, none, none, none, []⟩
    ⟨[some ("5.6.7.8", 90)], [some (200, some "fr", some "Paris")], [], []⟩
    (by decide) [] []

/-- A download cascade entry that yields no measurement: the request
raised, or the response fails the status/size/time conditions. -/
def dlFails (d : Option DlResponse) : Bool :=
  match d with
  | none => true
  | some r => !dlQualifies r

/-- Failing download attempts are skipped by the download loop. -/
theorem downloadPhase_append_fails :
    ∀ (pre : List (Option DlResponse)), pre.all dlFails = true →
    ∀ rest, downloadPhase (pre ++ rest) = downloadPhase rest
  | [], _, _ => rfl
  | d :: ds, h, rest => by
    simp only [List.all_cons, Bool.and_eq_true] at h
    obtain ⟨hd, hds⟩ := h
    cases d with
    | none => simpa [downloadPhase] using downloadPhase_append_fails ds hds rest
    | some x =>
      have hx : dlQualifies x = false := by simpa [dlFails] using hd
      simp [downloadPhase, hx, downloadPhase_append_fails ds hds rest]

/-- C6: when the leading download endpoints all fail and a later one
succeeds with HTTP 200, more than 1000 bytes and positive duration, the
measurement is `round(actual_bytes*8/(duration*1000000), 2)` and the
fallback is never invoked: the result does not depend on the
status-check responses at all. -/
theorem test_speed_first_download_success (pre post : List (Option DlResponse))
    (r : DlResponse) (statusChecks : List (Option (ℕ × ℚ)))
    (hpre : pre.all dlFails = true) (hr : dlQualifies r = true) :
    downloadPhase (pre ++ some r :: post)
      = some (round2 ((r.size * 8 : ℚ) / (r.time * 1000000))) ∧
    test_speed (pre ++ some r :: post) statusChecks
      = round2 ((r.size * 8 : ℚ) / (r.time * 1000000)) := by
  have hdp : downloadPhase (pre ++ some r :: post)
      = some (round2 ((r.size * 8 : ℚ) / (r.time * 1000000))) := by
    rw [downloadPhase_append_fails pre hpre]
    simp [downloadPhase, hr]
  exact ⟨hdp, by simp [test_speed, hdp]⟩

/-- Witness for C6: two timeouts then 100000 bytes in 0.5 s give exactly
1.60 Mbps. -/
theorem test_speed_first_download_success_witness :
    test_speed [none, none, some ⟨200, 100000, 1/2⟩] [] = 1.6 ∧
    downloadPhase [none, none, some ⟨200, 100000, 1/2⟩] = some 1.6 := by
  have h := test_speed_first_download_success [none, none] []
    (⟨200, 100000, 1/2⟩ : DlResponse) [] (by decide) (by norm_num [dlQualifies])
  have hval : round2 ((((⟨200, 100000, 1/2⟩ : DlResponse).size : ℚ) * 8)
      / ((⟨200, 100000, 1/2⟩ : DlResponse).time * 1000000)) = 1.6 := by
    norm_num [round2, round_eq]
  exact ⟨h.2.trans hval, h.1.trans (by rw [hval])⟩

/-- C7 counterexample: every download fails, the first status check
succeeds with HTTP 200 in 100 ms, but the second status check raises;
the exception aborts the whole fallback loop (the `try` wraps the
`for`), so `test_speed` returns 0 although a status check succeeded. -/
theorem fallback_aborted_by_exception :
    test_speed [none, none, none] [some (200, 100), none, some (200, 110)] = 0 ∧
    ([some ((200 : ℕ), (100 : ℚ)), none, some (200, 110)].any
      (fun r => r.elim false (fun x => x.1 == 200))) = true := by
  refine ⟨?_, by decide⟩
  simp [test_speed, downloadPhase, speedFallback, statusCheckLoop]

/-- Rounding to one decimal preserves the 0.1 floor. -/
theorem round1_ge_tenth (q : ℚ) (hq : (0.1 : ℚ) ≤ q) : (0.1 : ℚ) ≤ round1 q := by
  have h1 : (1 : ℤ) ≤ round (q * 10) := by
    rw [round_eq]
    refine Int.le_floor.mpr ?_
    push_cast
    nlinarith [hq]
  have h2 : (1 : ℚ) ≤ ((round (q * 10) : ℤ) : ℚ) := by exact_mod_cast h1
  unfold round1
  linarith

/-- C7 amended: if every download attempt fails and every status-check
request completes without raising, with at least one HTTP 200 among
them and a nonzero average collected latency, the fallback returns
`round(max(0.1, 10/(avg/100)), 1)` computed from that average, and this
estimate is at least the 0.1 floor (hence never zero).  An exception
anywhere in the fallback instead yields 0, even if checks succeeded:
both a raising status-check request and the `ZeroDivisionError` at a
zero average latency abort it. -/
theorem fallback_estimate_floored (downloads : List (Option DlResponse))
    (statusChecks : List (Option (ℕ × ℚ))) (pings : List ℚ)
    (hdl : downloads.all dlFails = true)
    (hloop : statusCheckLoop statusChecks [] = some pings)
    (hne : pings ≠ [])
    (havg : pings.sum / (pings.length : ℚ) / 100 ≠ 0) :
    test_speed downloads statusChecks
      = round1 (max 0.1 (10 / (pings.sum / (pings.length : ℚ) / 100))) ∧
    (0.1 : ℚ) ≤ test_speed downloads statusChecks := by
  have hnone : downloadPhase downloads = none := by
    have h := downloadPhase_append_fails downloads hdl []
    simpa [downloadPhase] using h
  have hts : test_speed downloads statusChecks
      = round1 (max 0.1 (10 / (pings.sum / (pings.length : ℚ) / 100))) := by
    simp [test_speed, hnone, speedFallback, hloop, hne, havg]
  exact ⟨hts, hts ▸ round1_ge_tenth _ (le_max_left _ _)⟩

/-- Witness for the amended C7: checks of 100 ms, 120 ms and 110 ms give
the estimate round(10/(110/100), 1) = 9.1 Mbps, above the floor. -/
theorem fallback_estimate_floored_witness :
    test_speed [none] [some (200, 100), some (200, 120), some (200, 110)]
      = round1 (max 0.1 (10 / (([100, 120, 110] : List ℚ).sum
          / (([100, 120, 110] : List ℚ).length : ℚ) / 100))) ∧
    (0.1 : ℚ) ≤ test_speed [none] [some (200, 100), some (200, 120), some (200, 110)] :=
  fallback_estimate_floored [none] [some (200, 100), some (200, 120), some (200, 110)]
    [100, 120, 110] (by decide) (by simp [statusCheckLoop]) (by simp) (by norm_num)

/-- A geolocation response that does not end the geolocation loop: the
call raised, the status is not 200, or the country value is not a
non-empty 2-character string after upper-casing. -/
def geoNoCountry (g : GeoResponse) : Bool :=
  match g with
  | none => true
  | some (status, countryVal, _) =>
    !(status == 200 &&
      (decide (pyUpper (countryVal.getD "") ≠ "")
        && (pyUpper (countryVal.getD "")).length == 2))

/-- An exhausted geolocation cascade yields the Unknown sentinel pair. -/
theorem locationServiceLoop_exhausted (a : String) (p : ℕ) :
    ∀ (l : List GeoResponse), l.all geoNoCountry = true →
    locationServiceLoop a p l = (some a, "Unknown", "Unknown", p)
  | [], _ => rfl
  | none :: rest, h => by
    simp only [List.all_cons, Bool.and_eq_true] at h
    simpa [locationServiceLoop] using locationServiceLoop_exhausted a p rest h.2
  | some (status, countryVal, cityVal) :: rest, h => by
    simp only [List.all_cons, Bool.and_eq_true] at h
    obtain ⟨hg, hrest⟩ := h
    have ih := locationServiceLoop_exhausted a p rest hrest
    by_cases hs : status = 200
    · subst hs
      have hc : ¬(pyUpper (countryVal.getD "") ≠ ""
          ∧ (pyUpper (countryVal.getD "")).length = 2) := by
        simp only [geoNoCountry, beq_self_eq_true, Bool.true_and, Bool.not_eq_true',
          Bool.and_eq_false_iff, decide_eq_false_iff_not, beq_eq_false_iff_ne] at hg
        rcases hg with h1 | h1
        · exact fun hand => h1 hand.1
        · exact fun hand => h1 hand.2
      simp [locationServiceLoop, hc, ih]
    · simp [locationServiceLoop, hs, ih]

/-- C8: when the IP cascade discovers a (non-empty) address but every
geolocation service fails to supply a 2-letter country over HTTP 200,
the result still carries the discovered address together with the
"Unknown" country and "Unknown" city — it is not a failure. -/
theorem resolve_geo_exhausted_keeps_address (ipResponses : List (Option (String × ℕ)))
    (geoResponses : List GeoResponse) (a : String) (p : ℕ)
    (hip : ipServiceLoop ipResponses none 9999 = (some a, p)) (ha : a ≠ "")
    (hgeo : geoResponses.all geoNoCountry = true) :
    get_ip_and_location ipResponses geoResponses = (some a, "Unknown", "Unknown", p) := by
  unfold get_ip_and_location
  rw [hip]
  change (if a = "" then ((none : Option String), "Error", "No IP", 9999)
      else locationServiceLoop a p geoResponses) = _
  rw [if_neg ha]
  exact locationServiceLoop_exhausted a p geoResponses hgeo

/-- Witness for C8: a valid address with a 404 answer, a 3-letter
country answer and a raising service. -/
theorem resolve_geo_exhausted_keeps_address_witness :
    get_ip_and_location [some ("1.2.3.4", 80)]
      [some (404, some "us", none), some (200, some "usa", some "X"), none]
      = (some "1.2.3.4", "Unknown", "Unknown", 80) :=
  resolve_geo_exhausted_keeps_address [some ("1.2.3.4", 80)]
    [some (404, some "us", none), some (200, some "usa", some "X"), none]
    "1.2.3.4" 80 (by decide) (by decide) (by decide)

/-- Prefixing cannot produce an empty bridge line. -/
theorem mkBridgeLine_ne_empty (l : String) (hl : l ≠ "") : mkBridgeLine l ≠ "" := by
  unfold mkBridgeLine
  by_cases hb : pyStartsWith "Bridge" l = true
  · simpa [hb] using hl
  · simp only [hb, if_false]
    intro hcontra
    have := congrArg String.data hcontra
    simp [String.data_append] at this

/-- Every non-empty line is assigned some bridge type ("unknown" when
nothing matches). -/
theorem detect_bridge_type_isSome (l : String) (hl : l ≠ "") :
    ∃ t, detect_bridge_type l = some t := by
  unfold detect_bridge_type
  rw [if_neg hl]
  exact ⟨_, rfl⟩

/-- The type-accumulator of `parse_bridge_input` never loses members. -/
theorem detectedTypes_foldl_mem :
    ∀ (lines : List String) (acc : List String) (x : String), x ∈ acc →
    x ∈ lines.foldl
      (fun acc l =>
        match detect_bridge_type l with
        | some t => if t ∈ acc then acc else acc ++ [t]
        | none => acc)
      acc
  | [], _, _, hx => hx
  | l :: ls, acc, x, hx => by
    simp only [List.foldl_cons]
    apply detectedTypes_foldl_mem ls
    cases hdt : detect_bridge_type l with
    | none => simpa [hdt] using hx
    | some t =>
      simp only [hdt]
      by_cases hmem : t ∈ acc
      · simpa [hmem] using hx
      · simp only [hmem, if_false]
        exact List.mem_append_left _ hx

/-- A non-empty batch of non-empty lines yields a non-empty type set. -/
theorem detectedTypes_ne_nil (lines : List String) (hl : ∀ l ∈ lines, l ≠ "")
    (hne : lines ≠ []) : detectedTypes lines ≠ [] := by
  cases lines with
  | nil => exact absurd rfl hne
  | cons l ls =>
    obtain ⟨t, ht⟩ := detect_bridge_type_isSome l (hl l (List.mem_cons_self _ _))
    unfold detectedTypes
    simp only [List.foldl_cons, ht, List.not_mem_nil, if_false, List.nil_append]
    intro hcontra
    have : t ∈ ([] : List String) := hcontra ▸
      detectedTypes_foldl_mem ls [t] t (List.mem_cons_self _ _)
    simp at this

/-- C9: for non-blank bridge input, `parse_bridge_input` keeps every
(prefixed) input line and records exactly one representative type drawn
from the detected types; when exactly one type was detected (including
the all-unrecognized case, where that type is "unknown") the
representative is it. -/
theorem parse_bridge_keeps_lines_and_type (bridge_input : String)
    (h : bridgeLinesOf bridge_input ≠ []) :
    ∃ ty, parse_bridge_input bridge_input = some (bridgeLinesOf bridge_input, ty) ∧
      ty ∈ detectedTypes (bridgeLinesOf bridge_input) ∧
      ∀ t, detectedTypes (bridgeLinesOf bridge_input) = [t] → ty = t := by
  have hstrip : pyStrip bridge_input ≠ "" := by
    intro hs
    apply h
    unfold bridgeLinesOf rawBridgeLines
    rw [hs]
    rfl
  have hlines : ∀ l ∈ bridgeLinesOf bridge_input, l ≠ "" := by
    intro l hl
    unfold bridgeLinesOf at hl
    rcases List.mem_map.mp hl with ⟨x, hx, rfl⟩
    have hxne : x ≠ "" := by
      unfold rawBridgeLines at hx
      simpa using (List.mem_filter.mp hx).2
    exact mkBridgeLine_ne_empty x hxne
  have hne := detectedTypes_ne_nil (bridgeLinesOf bridge_input) hlines h
  cases hd : detectedTypes (bridgeLinesOf bridge_input) with
  | nil => exact absurd hd hne
  | cons t rest =>
    refine ⟨t, ?_, ?_, ?_⟩
    · simp only [parse_bridge_input]
      rw [if_neg hstrip, hd]
    · exact List.mem_cons_self _ _
    · intro t' ht'
      cases ht'
      rfl

/-- Witness for C9 at a mixed obfs4/snowflake batch: both lines are
kept and the recorded type is one of the two detected types. -/
theorem parse_bridge_keeps_lines_and_type_witness :
    ∃ ty, parse_bridge_input "obfs4 1.2.3.4:443 AAAA\nsnowflake 2.3.4.5:80 BBBB"
        = some (bridgeLinesOf "obfs4 1.2.3.4:443 AAAA\nsnowflake 2.3.4.5:80 BBBB", ty) ∧
      ty ∈ detectedTypes (bridgeLinesOf "obfs4 1.2.3.4:443 AAAA\nsnowflake 2.3.4.5:80 BBBB") ∧
      ∀ t, detectedTypes (bridgeLinesOf "obfs4 1.2.3.4:443 AAAA\nsnowflake 2.3.4.5:80 BBBB")
          = [t] → ty = t :=
  parse_bridge_keeps_lines_and_type "obfs4 1.2.3.4:443 AAAA\nsnowflake 2.3.4.5:80 BBBB"
    (by decide)

/-- C10: in the re-test pass, a running instance whose resolution yields
any address has its observed fields (ip, city, ping, speed) overwritten
and is included in the re-test ranking even when the resolved country
differs from its target: no country check is performed before updating
and measuring. -/
theorem retest_updates_without_country_check
    (fleet : List (TorInstance × Bool × AttemptEnv))
    (inst : TorInstance) (env : AttemptEnv) (ip country city : String) (ping : ℕ)
    (hmem : (inst, true, env) ∈ fleet)
    (hres : get_ip_and_location env.ipResponses env.geoResponses
      = (some ip, country, city, ping))
    (_hne : country ≠ inst.country) :
    retestOne inst true env
      = some { inst with ip := some ip, city := some city, ping := some ping,
                         speed := some (test_speed env.downloads env.statusChecks) } ∧
    { inst with ip := some ip, city := some city, ping := some ping,
                speed := some (test_speed env.downloads env.statusChecks) }
      ∈ test_all_instances fleet := by
  have hone : retestOne inst true env
      = some { inst with ip := some ip, city := some city, ping := some ping,
                         speed := some (test_speed env.downloads env.statusChecks) } := by
    simp [retestOne, hres]
  refine ⟨hone, ?_⟩
  unfold test_all_instances
  rw [List.mem_mergeSort]
  exact List.mem_filterMap.mpr ⟨(inst, true, env), hmem, hone⟩

/-- Witness for C10: a running US-target instance resolving to FR is
still updated and ranked. -/
theorem retest_updates_without_country_check_witness :
    retestOne ⟨"tor1", "US", 9050, "/root/tor/tor1", none, none, none, none, []⟩ true
      ⟨[some ("5.6.7.8", 90)], [some (200, some "fr", some "Paris")], [], []⟩
      = some { (⟨"tor1", "US", 9050, "/root/tor/tor1", none, none, none, none, []⟩ :
            TorInstance) with
          ip := some "5.6.7.8", city := some "Paris", ping := some 90,
          speed := some (test_speed [] []) } ∧
    { (⟨"tor1", "US", 9050, "/root/tor/tor1", none, none, none, none, []⟩ :
          TorInstance) with
        ip := some "5.6.7.8", city := some "Paris", ping := some 90,
        speed := some (test_speed [] []) }
      ∈ test_all_instances
          [(⟨"tor1", "US", 9050, "/root/tor/tor1", none, none, none, none, []⟩,
            true,
            ⟨[some ("5.6.7.8", 90)], [some (200, some "fr", some "Paris")], [], []⟩)] :=
  retest_updates_without_country_check
    [(⟨"tor1", "US", 9050, "/root/tor/tor1", none, none, none, none, []⟩,
      true,
      ⟨[some ("5.6.7.8", 90)], [some (200, some "fr", some "Paris")], [], []⟩)]
    ⟨"tor1", "US", 9050, "/root/tor/tor1", none, none, none, none, []⟩
    ⟨[some ("5.6.7.8", 90)], [some (200, some "fr", some "Paris")], [], []⟩
    "5.6.7.8" "FR" "Paris" 90
    (List.mem_singleton.mpr rfl) (by decide) (by decide)

/-- Appending preserves the first character. -/
theorem headCh_append (s t : String) (c : Char) (h : s.data.head? = some c) :
    (s ++ t).data.head? = some c := by
  rw [String.data_append]
  cases hs : s.data with
  | nil => simp [hs] at h
  | cons a as =>
    rw [hs] at h
    simpa using h

/-- A string starting with one character cannot start with a string whose
first character differs. -/
theorem pyStartsWith_false_of_head (p l : String) (c d : Char)
    (hp : p.data.head? = some c) (hl : l.data.head? = some d) (hne : c ≠ d) :
    pyStartsWith p l = false := by
  unfold pyStartsWith
  cases hpd : p.data with
  | nil => simp [hpd] at hp
  | cons a as =>
    cases hld : l.data with
    | nil => simp [hld] at hl
    | cons b bs =>
      rw [hpd] at hp
      rw [hld] at hl
      simp only [List.head?_cons, Option.some.injEq] at hp hl
      subst hp
      subst hl
      simp [List.isPrefixOf_cons₂, hne]

/-- Every string starts with its own prefix. -/
theorem pyStartsWith_append_self (p t : String) : pyStartsWith p (p ++ t) = true := by
  unfold pyStartsWith
  rw [String.data_append, List.isPrefixOf_iff_prefix]
  exact List.prefix_append _ _

/-- A string that starts with `p` begins with the first character of
`p`. -/
theorem head_of_pyStartsWith (p l : String) (c : Char) (hp : p.data.head? = some c)
    (h : pyStartsWith p l = true) : l.data.head? = some c := by
  unfold pyStartsWith at h
  cases hpd : p.data with
  | nil => simp [hpd] at hp
  | cons a as =>
    rw [hpd] at h hp
    simp only [List.head?_cons, Option.some.injEq] at hp
    subst hp
    cases hld : l.data with
    | nil => rw [hld] at h; simp at h
    | cons b bs =>
      rw [hld] at h
      rw [List.isPrefixOf_cons₂, Bool.and_eq_true] at h
      simp only [List.head?_cons, Option.some.injEq]
      exact (beq_iff_eq.mp h.1).symm

/-- Strings with different first characters differ. -/
theorem ne_of_head (s t : String) (c d : Char) (hs : s.data.head? = some c)
    (ht : t.data.head? = some d) (hne : c ≠ d) : s ≠ t := by
  intro he
  subst he
  rw [hs] at ht
  exact hne (Option.some.inj ht)

/-- The plugin directive block never contains an exit-country line. -/
theorem transportPluginLines_filter_exit (ty : String) :
    (transportPluginLines ty).filter (fun l => pyStartsWith "ExitNodes" l) = [] := by
  unfold transportPluginLines
  split_ifs <;> decide

/-- The plugin directive block contains a transport-plugin directive
exactly for the four known types. -/
theorem transportPluginLines_any_ctp (ty : String) :
    ((transportPluginLines ty).any (fun l => pyStartsWith "ClientTransportPlugin" l)) = true
      ↔ ty ∈ (["obfs4", "snowflake", "meek-azure", "webtunnel"] : List String) := by
  unfold transportPluginLines
  split_ifs with h1 h2 h3 h4
  · simp only [h1]
    exact ⟨fun _ => by decide, fun _ => by decide⟩
  · simp only [h2]
    exact ⟨fun _ => by decide, fun _ => by decide⟩
  · simp only [h3]
    exact ⟨fun _ => by decide, fun _ => by decide⟩
  · simp only [h4]
    exact ⟨fun _ => by decide, fun _ => by decide⟩
  · simp [h1, h2, h3, h4]

/-- The plugin directive block never contains a circuit-build-timeout
line. -/
theorem transportPluginLines_no_timeout (ty : String) :
    "CircuitBuildTimeout 120" ∉ transportPluginLines ty ∧
    "CircuitBuildTimeout 60" ∉ transportPluginLines ty := by
  unfold transportPluginLines
  split_ifs <;> exact ⟨by decide, by decide⟩

/-- The bridge-line invariant `parse_bridge_input` guarantees: every
kept line starts with "Bridge". -/
def bridgeLinesOk (bridge_data : Option (List String × String)) : Bool :=
  match bridge_data with
  | none => true
  | some (bl, _) => bl.all (fun l => pyStartsWith "Bridge" l)

/-- C5: for every endpoint and every optional bridge set whose lines
carry the "Bridge" prefix (the `parse_bridge_input` invariant), the
generated torrc has exactly one ExitNodes directive, which names the
endpoint's target country; it has a ClientTransportPlugin directive iff
a bridge set is supplied with one of the four known types; and its
circuit-build timeout is 120 with bridges and 60 without.  `use_bridges`
is tied to the presence of the bridge set, as at both call sites. -/
theorem create_torrc_directives (inst : TorInstance)
    (bridge_data : Option (List String × String)) (circuit_period : ℕ)
    (hb : bridgeLinesOk bridge_data = true) :
    (create_torrc inst bridge_data.isSome bridge_data circuit_period).filter
        (fun l => pyStartsWith "ExitNodes" l)
      = ["ExitNodes \x7b" ++ inst.country ++ "\x7d"] ∧
    (((create_torrc inst bridge_data.isSome bridge_data circuit_period).any
        (fun l => pyStartsWith "ClientTransportPlugin" l)) = true ↔
      ∃ bl ty, bridge_data = some (bl, ty) ∧
        ty ∈ (["obfs4", "snowflake", "meek-azure", "webtunnel"] : List String)) ∧
    ("CircuitBuildTimeout 120"
        ∈ create_torrc inst bridge_data.isSome bridge_data circuit_period
      ↔ bridge_data.isSome = true) ∧
    ("CircuitBuildTimeout 60"
        ∈ create_torrc inst bridge_data.isSome bridge_data circuit_period
      ↔ bridge_data.isSome = false) := by
  have hSocksE : pyStartsWith "ExitNodes" ("SocksPort " ++ toString inst.port) = false :=
    pyStartsWith_false_of_head _ _ 'E' 'S' rfl (headCh_append _ _ _ rfl) (by decide)
  have hDataE : pyStartsWith "ExitNodes" ("DataDirectory " ++ inst.data_dir) = false :=
    pyStartsWith_false_of_head _ _ 'E' 'D' rfl (headCh_append _ _ _ rfl) (by decide)
  have hNewE : pyStartsWith "ExitNodes"
      ("NewCircuitPeriod " ++ toString circuit_period) = false :=
    pyStartsWith_false_of_head _ _ 'E' 'N' rfl (headCh_append _ _ _ rfl) (by decide)
  have hexitEq : "ExitNodes \x7b" ++ inst.country ++ "\x7d"
      = "ExitNodes" ++ (" \x7b" ++ inst.country ++ "\x7d") := by
    simp only [show ("ExitNodes \x7b" : String) = "ExitNodes" ++ " \x7b" by decide,
      String.append_assoc]
  have hexitE : pyStartsWith "ExitNodes"
      ("ExitNodes \x7b" ++ inst.country ++ "\x7d") = true := by
    rw [hexitEq]; exact pyStartsWith_append_self _ _
  have hSocksC : pyStartsWith "ClientTransportPlugin"
      ("SocksPort " ++ toString inst.port) = false :=
    pyStartsWith_false_of_head _ _ 'C' 'S' rfl (headCh_append _ _ _ rfl) (by decide)
  have hDataC : pyStartsWith "ClientTransportPlugin"
      ("DataDirectory " ++ inst.data_dir) = false :=
    pyStartsWith_false_of_head _ _ 'C' 'D' rfl (headCh_append _ _ _ rfl) (by decide)
  have hNewC : pyStartsWith "ClientTransportPlugin"
      ("NewCircuitPeriod " ++ toString circuit_period) = false :=
    pyStartsWith_false_of_head _ _ 'C' 'N' rfl (headCh_append _ _ _ rfl) (by decide)
  have hExitC : pyStartsWith "ClientTransportPlugin"
      ("ExitNodes \x7b" ++ inst.country ++ "\x7d") = false :=
    pyStartsWith_false_of_head _ _ 'C' 'E' rfl
      (by rw [hexitEq]; exact headCh_append _ _ _ rfl) (by decide)
  have hne120Socks : "CircuitBuildTimeout 120" ≠ "SocksPort " ++ toString inst.port :=
    ne_of_head _ _ 'C' 'S' rfl (headCh_append _ _ _ rfl) (by decide)
  have hne120Data : "CircuitBuildTimeout 120" ≠ "DataDirectory " ++ inst.data_dir :=
    ne_of_head _ _ 'C' 'D' rfl (headCh_append _ _ _ rfl) (by decide)
  have hne120New : "CircuitBuildTimeout 120"
      ≠ "NewCircuitPeriod " ++ toString circuit_period :=
    ne_of_head _ _ 'C' 'N' rfl (headCh_append _ _ _ rfl) (by decide)
  have hne120Exit : "CircuitBuildTimeout 120"
      ≠ "ExitNodes \x7b" ++ inst.country ++ "\x7d" :=
    ne_of_head _ _ 'C' 'E' rfl (by rw [hexitEq]; exact headCh_append _ _ _ rfl) (by decide)
  have hne60Socks : "CircuitBuildTimeout 60" ≠ "SocksPort " ++ toString inst.port :=
    ne_of_head _ _ 'C' 'S' rfl (headCh_append _ _ _ rfl) (by decide)
  have hne60Data : "CircuitBuildTimeout 60" ≠ "DataDirectory " ++ inst.data_dir :=
    ne_of_head _ _ 'C' 'D' rfl (headCh_append _ _ _ rfl) (by decide)
  have hne60New : "CircuitBuildTimeout 60"
      ≠ "NewCircuitPeriod " ++ toString circuit_period :=
    ne_of_head _ _ 'C' 'N' rfl (headCh_append _ _ _ rfl) (by decide)
  have hne60Exit : "CircuitBuildTimeout 60"
      ≠ "ExitNodes \x7b" ++ inst.country ++ "\x7d" :=
    ne_of_head _ _ 'C' 'E' rfl (by rw [hexitEq]; exact headCh_append _ _ _ rfl) (by decide)
  cases bridge_data with
  | none =>
    have hcfg : create_torrc inst (none : Option (List String × String)).isSome none
        circuit_period
        = ["SocksPort " ++ toString inst.port, "DataDirectory " ++ inst.data_dir]
          ++ ["ExitNodes \x7b" ++ inst.country ++ "\x7d", "StrictNodes 1",
              "NewCircuitPeriod " ++ toString circuit_period, "MaxCircuitDirtiness 300",
              "CircuitBuildTimeout 60", "LearnCircuitBuildTimeout 0",
              "NumEntryGuards 3", "UseEntryGuards 1"] := by
      simp [create_torrc]
    rw [hcfg]
    refine ⟨?_, ?_, ?_, ?_⟩
    · simp [List.filter_append, List.filter_cons, hSocksE, hDataE, hNewE, hexitE,
        (by decide : pyStartsWith "ExitNodes" "StrictNodes 1" = false),
        (by decide : pyStartsWith "ExitNodes" "MaxCircuitDirtiness 300" = false),
        (by decide : pyStartsWith "ExitNodes" "CircuitBuildTimeout 60" = false),
        (by decide : pyStartsWith "ExitNodes" "LearnCircuitBuildTimeout 0" = false),
        (by decide : pyStartsWith "ExitNodes" "NumEntryGuards 3" = false),
        (by decide : pyStartsWith "ExitNodes" "UseEntryGuards 1" = false)]
    · simp [List.any_append, List.any_cons, hSocksC, hDataC, hNewC, hExitC,
        (by decide : pyStartsWith "ClientTransportPlugin" "StrictNodes 1" = false),
        (by decide : pyStartsWith "ClientTransportPlugin" "MaxCircuitDirtiness 300" = false),
        (by decide : pyStartsWith "ClientTransportPlugin" "CircuitBuildTimeout 60" = false),
        (by decide : pyStartsWith "ClientTransportPlugin" "LearnCircuitBuildTimeout 0" = false),
        (by decide : pyStartsWith "ClientTransportPlugin" "NumEntryGuards 3" = false),
        (by decide : pyStartsWith "ClientTransportPlugin" "UseEntryGuards 1" = false)]
    · simp [List.mem_append, List.mem_cons, hne120Socks, hne120Data, hne120New,
        hne120Exit]
    · simp
  | some p =>
    obtain ⟨bl, ty⟩ := p
    have hbl : ∀ l ∈ bl, pyStartsWith "Bridge" l = true := by
      intro l hl
      have := hb
      simp only [bridgeLinesOk, List.all_eq_true] at this
      exact this l hl
    have hblhead : ∀ l ∈ bl, l.data.head? = some 'B' :=
      fun l hl => head_of_pyStartsWith "Bridge" l 'B' rfl (hbl l hl)
    have hblE : bl.filter (fun l => pyStartsWith "ExitNodes" l) = [] := by
      rw [List.filter_eq_nil_iff]
      intro l hl
      simp [pyStartsWith_false_of_head "ExitNodes" l 'E' 'B' rfl (hblhead l hl) (by decide)]
    have hblC : bl.any (fun l => pyStartsWith "ClientTransportPlugin" l) = false := by
      rw [List.any_eq_false]
      intro l hl
      simp [pyStartsWith_false_of_head "ClientTransportPlugin" l 'C' 'B' rfl (hblhead l hl)
        (by decide)]
    have hbl120 : "CircuitBuildTimeout 120" ∉ bl := by
      intro hmem
      exact absurd (hblhead _ hmem) (by decide)
    have hbl60 : "CircuitBuildTimeout 60" ∉ bl := by
      intro hmem
      exact absurd (hblhead _ hmem) (by decide)
    have hcfg : create_torrc inst
        (some (bl, ty) : Option (List String × String)).isSome (some (bl, ty))
        circuit_period
        = ["SocksPort " ++ toString inst.port, "DataDirectory " ++ inst.data_dir]
          ++ (["UseBridges 1"] ++ transportPluginLines ty ++ bl)
          ++ ["ExitNodes \x7b" ++ inst.country ++ "\x7d", "StrictNodes 1",
              "NewCircuitPeriod " ++ toString circuit_period, "MaxCircuitDirtiness 300",
              "CircuitBuildTimeout 120", "LearnCircuitBuildTimeout 0",
              "NumEntryGuards 3", "UseEntryGuards 1"] := by
      simp [create_torrc]
    rw [hcfg]
    refine ⟨?_, ?_, ?_, ?_⟩
    · simp [List.filter_append, List.filter_cons, hSocksE, hDataE, hNewE, hexitE,
        hblE, transportPluginLines_filter_exit,
        (by decide : pyStartsWith "ExitNodes" "UseBridges 1" = false),
        (by decide : pyStartsWith "ExitNodes" "StrictNodes 1" = false),
        (by decide : pyStartsWith "ExitNodes" "MaxCircuitDirtiness 300" = false),
        (by decide : pyStartsWith "ExitNodes" "CircuitBuildTimeout 120" = false),
        (by decide : pyStartsWith "ExitNodes" "LearnCircuitBuildTimeout 0" = false),
        (by decide : pyStartsWith "ExitNodes" "NumEntryGuards 3" = false),
        (by decide : pyStartsWith "ExitNodes" "UseEntryGuards 1" = false)]
    · rw [show (∃ bl2 ty2,
          (some (bl, ty) : Option (List String × String)) = some (bl2, ty2) ∧
            ty2 ∈ (["obfs4", "snowflake", "meek-azure", "webtunnel"] : List String))
          ↔ ty ∈ (["obfs4", "snowflake", "meek-azure", "webtunnel"] : List String) from
          ⟨fun ⟨_, _, heq, hm⟩ => by cases heq; exact hm, fun hm => ⟨bl, ty, rfl, hm⟩⟩]
      rw [← transportPluginLines_any_ctp ty]
      simp [List.any_append, List.any_cons, hSocksC, hDataC, hNewC, hExitC, hblC,
        (by decide : pyStartsWith "ClientTransportPlugin" "UseBridges 1" = false),
        (by decide : pyStartsWith "ClientTransportPlugin" "StrictNodes 1" = false),
        (by decide : pyStartsWith "ClientTransportPlugin" "MaxCircuitDirtiness 300" = false),
        (by decide : pyStartsWith "ClientTransportPlugin" "CircuitBuildTimeout 120" = false),
        (by decide : pyStartsWith "ClientTransportPlugin" "LearnCircuitBuildTimeout 0" = false),
        (by decide : pyStartsWith "ClientTransportPlugin" "NumEntryGuards 3" = false),
        (by decide : pyStartsWith "ClientTransportPlugin" "UseEntryGuards 1" = false)]
    · simp
    · have htpl60 := (transportPluginLines_no_timeout ty).2
      simp [List.mem_append, List.mem_cons, hne60Socks, hne60Data, hne60New,
        hne60Exit, hbl60, htpl60]

/-- Witness for C5 at a concrete endpoint with one obfs4 bridge. -/
theorem create_torrc_directives_witness :
    (create_torrc ⟨"tor1", "US", 9050, "/root/tor/tor1", none, none, none, none, []⟩
        (some (["Bridge obfs4 1.2.3.4:443 FP"], "obfs4")).isSome
        (some (["Bridge obfs4 1.2.3.4:443 FP"], "obfs4")) 30).filter
        (fun l => pyStartsWith "ExitNodes" l)
      = ["ExitNodes \x7b" ++ "US" ++ "\x7d"] ∧
    (((create_torrc ⟨"tor1", "US", 9050, "/root/tor/tor1", none, none, none, none, []⟩
        (some (["Bridge obfs4 1.2.3.4:443 FP"], "obfs4")).isSome
        (some (["Bridge obfs4 1.2.3.4:443 FP"], "obfs4")) 30).any
        (fun l => pyStartsWith "ClientTransportPlugin" l)) = true ↔
      ∃ bl ty, (some (["Bridge obfs4 1.2.3.4:443 FP"], "obfs4")
            : Option (List String × String)) = some (bl, ty) ∧
        ty ∈ (["obfs4", "snowflake", "meek-azure", "webtunnel"] : List String)) ∧
    ("CircuitBuildTimeout 120"
        ∈ create_torrc ⟨"tor1", "US", 9050, "/root/tor/tor1", none, none, none, none, []⟩
            (some (["Bridge obfs4 1.2.3.4:443 FP"], "obfs4")).isSome
            (some (["Bridge obfs4 1.2.3.4:443 FP"], "obfs4")) 30
      ↔ (some (["Bridge obfs4 1.2.3.4:443 FP"], "obfs4")
          : Option (List String × String)).isSome = true) ∧
    ("CircuitBuildTimeout 60"
        ∈ create_torrc ⟨"tor1", "US", 9050, "/root/tor/tor1", none, none, none, none, []⟩
            (some (["Bridge obfs4 1.2.3.4:443 FP"], "obfs4")).isSome
            (some (["Bridge obfs4 1.2.3.4:443 FP"], "obfs4")) 30
      ↔ (some (["Bridge obfs4 1.2.3.4:443 FP"], "obfs4")
          : Option (List String × String)).isSome = false) :=
  create_torrc_directives
    ⟨"tor1", "US", 9050, "/root/tor/tor1", none, none, none, none, []⟩
    (some (["Bridge obfs4 1.2.3.4:443 FP"], "obfs4")) 30 (by decide)
